import Mathlib

/-!
Shallow embedding of the LearnerMax item-management core:
the DynamoDB item store adapter (`src/backend` service `DynamoDBService`),
the Express items router (`itemsRouter`), and the error-normalizing
middleware (`errorHandler`).  Pure definitions translate the TypeScript
source; theorems settle the spec's claims about them.
-/

/-- An item record, as stored and returned by the service.  The TypeScript
interface has `id`, `name`, and optional `createdAt` / `updatedAt` fields;
`extra` models any additional JavaScript properties carried by the object
(an object with no extra properties has `extra = []`). -/
structure Item where
  id : String
  name : String
  createdAt : Option String := none
  updatedAt : Option String := none
  extra : List (String × String) := []
  deriving Repr, DecidableEq

/-- The DynamoDB table, an external key-value store keyed by `id`.
Modelled as a list of records; `ddbPut` overwrites the record with the
same key (DynamoDB single-key put semantics), `ddbGet` fetches by key. -/
abbrev Store := List Item

/-- DynamoDB `GetCommand`: fetch the record whose key equals `id`. -/
def ddbGet (s : Store) (id : String) : Option Item :=
  s.find? (fun it => it.id == id)

/-- DynamoDB `PutCommand`: create or replace the record keyed by `it.id`. -/
def ddbPut (s : Store) (it : Item) : Store :=
  it :: s.filter (fun x => !(x.id == it.id))

/-- A thrown JavaScript `Error`: message, constructor name (`"Error"` for
plain errors), the optional `statusCode` some errors carry, and the
always-present diagnostic `stack` string. -/
structure JsError where
  message : String
  name : String := "Error"
  statusCode : Option Nat := none
  stack : String := ""
  deriving Repr, DecidableEq

/-- `new Error(msg)`: a plain error, no status code. -/
def mkError (msg : String) : JsError := { message := msg }

/-- JavaScript falsiness of a possibly-undefined string
(`undefined` and `""` are falsy). -/
def jsFalsyOpt : Option String → Bool
  | none => true
  | some s => s == ""

/-- `DynamoDBService.getAllItems`: checks `SAMPLE_TABLE`, then scans the
table.  `dbErr` is the error the underlying `send` raises, if any; on such
an error the detail is logged and a generic error is thrown.  Returns the
result together with the `console.error` log entries. -/
def getAllItems (tableName : Option String) (dbErr : Option String)
    (s : Store) : Except JsError (List Item) × List String :=
  if jsFalsyOpt tableName then
    (.error (mkError "SAMPLE_TABLE environment variable is not set"), [])
  else
    match dbErr with
    | some e =>
        (.error (mkError "Failed to retrieve items from database"),
         ["Error getting all items: " ++ e])
    | none => (.ok s, [])

/-- `DynamoDBService.getItemById`: checks `SAMPLE_TABLE` and that `id` is
truthy, then issues a `GetCommand`; `data.Item || null` becomes an
`Option Item`.  A `send` failure is logged and rethrown generically. -/
def getItemById (tableName : Option String) (dbErr : Option String)
    (s : Store) (id : String) : Except JsError (Option Item) × List String :=
  if jsFalsyOpt tableName then
    (.error (mkError "SAMPLE_TABLE environment variable is not set"), [])
  else if id == "" then
    (.error (mkError "ID parameter is required"), [])
  else
    match dbErr with
    | some e =>
        (.error (mkError "Failed to retrieve item from database"),
         ["Error getting item by id: " ++ e])
    | none => (.ok (ddbGet s id), [])

/-- The argument of `putItem`: `Omit<Item, createdAt | updatedAt>`, i.e.
`id`, `name`, and any extra properties of the passed object. -/
structure PutInput where
  id : String
  name : String
  extra : List (String × String) := []
  deriving Repr, DecidableEq

/-- `DynamoDBService.putItem`: checks `SAMPLE_TABLE` and that `id` and
`name` are truthy, stamps `createdAt` and `updatedAt` with the current
time `now`, spreads the input into the written record, and issues a
`PutCommand`.  Returns the service result, the resulting table state, and
the log entries. -/
def putItem (tableName : Option String) (dbErr : Option String)
    (s : Store) (input : PutInput) (now : String) :
    Except JsError Item × Store × List String :=
  if jsFalsyOpt tableName then
    (.error (mkError "SAMPLE_TABLE environment variable is not set"), s, [])
  else if input.id == "" || input.name == "" then
    (.error (mkError "Both id and name are required"), s, [])
  else
    match dbErr with
    | some e =>
        (.error (mkError "Failed to save item to database"), s,
         ["Error putting item: " ++ e])
    | none =>
        let itemWithTimestamps : Item :=
          { id := input.id, name := input.name, extra := input.extra,
            createdAt := some now, updatedAt := some now }
        (.ok itemWithTimestamps, ddbPut s itemWithTimestamps,
         ["Success - item added or updated"])

/-- The uniform JSON error envelope (the object under the `error` key):
message, status code, ISO timestamp, request path, and the optional
diagnostic stack string. -/
structure ErrorBody where
  message : String
  statusCode : Nat
  timestamp : String
  path : String
  stack : Option String := none
  deriving Repr, DecidableEq

/-- `errorHandler` middleware: default status `err.statusCode || 500` and
message `err.message || default`, overridden for the three special error
names, with the stack included exactly when `ENVIRONMENT` is not `prod`.
`now` is `new Date().toISOString()` at response time. -/
def errorHandler (environment : Option String) (err : JsError)
    (path now : String) : ErrorBody :=
  let statusCode :=
    match err.statusCode with
    | some c => if c == 0 then 500 else c
    | none => 500
  let message := if err.message == "" then "Internal Server Error" else err.message
  let p : Nat × String :=
    if err.name == "ValidationError" then (400, "Validation Error")
    else if err.name == "CastError" then (400, "Invalid ID format")
    else if err.name == "JsonWebTokenError" then (401, "Invalid token")
    else (statusCode, message)
  let isDevelopment := !(environment == some "prod")
  { message := p.2, statusCode := p.1, timestamp := now, path := path,
    stack := if isDevelopment then some err.stack else none }

/-- Outcome of one items-router handler: a 200 JSON array, a 200 JSON
item, a directly written error envelope (`res.status(...).json(...)`), or
an error passed to `next` for the error middleware. -/
inductive RouterResult where
  | okList (items : List Item)
  | okItem (it : Item)
  | errBody (e : ErrorBody)
  | nextErr (err : JsError)
  deriving Repr, DecidableEq

/-- `GET /api/items` handler: list all items, or forward the error. -/
def getItemsRoute (tableName : Option String) (dbErr : Option String)
    (s : Store) : RouterResult :=
  match getAllItems tableName dbErr s with
  | (.ok items, _) => .okList items
  | (.error e, _) => .nextErr e

/-- `GET /api/items/:id` handler: fetch by id; a `null` result becomes a
404 envelope whose message quotes the id; errors are forwarded. -/
def getItemByIdRoute (tableName : Option String) (dbErr : Option String)
    (s : Store) (id path now : String) : RouterResult :=
  match getItemById tableName dbErr s id with
  | (.ok (some it), _) => .okItem it
  | (.ok none, _) =>
      .errBody { message := "Item with id \x27" ++ id ++ "\x27 not found",
                 statusCode := 404, timestamp := now, path := path,
                 stack := none }
  | (.error e, _) => .nextErr e

/-- A `POST /api/items` request body: possibly-absent `id` and `name`
strings plus any other fields. -/
structure Body where
  id : Option String := none
  name : Option String := none
  extra : List (String × String) := []
  deriving Repr, DecidableEq

/-- `POST /api/items` handler: destructures `id` and `name` from the
body, short-circuits with a 400 envelope when either is falsy, otherwise
calls `putItem` with exactly those two fields.  Returns the response, the
resulting table state, and whether `putItem` was invoked. -/
def postItemRoute (tableName : Option String) (dbErr : Option String)
    (s : Store) (body : Body) (path now : String) :
    RouterResult × Store × Bool :=
  if jsFalsyOpt body.id || jsFalsyOpt body.name then
    (.errBody { message := "Both id and name are required in the request body",
                statusCode := 400, timestamp := now, path := path,
                stack := none }, s, false)
  else
    match putItem tableName dbErr s
        { id := body.id.getD "", name := body.name.getD "" } now with
    | (.ok it, s2, _) => (.okItem it, s2, true)
    | (.error e, s2, _) => (.nextErr e, s2, true)

/-- The serialized HTTP response body. -/
inductive HttpBody where
  | items (l : List Item)
  | item (it : Item)
  | err (e : ErrorBody)
  deriving Repr, DecidableEq

/-- Map a router outcome to the final HTTP status and body, sending
forwarded errors through `errorHandler` (which stamps its own time). -/
def finalize (environment : Option String) (path now : String) :
    RouterResult → Nat × HttpBody
  | .okList l => (200, .items l)
  | .okItem it => (200, .item it)
  | .errBody e => (e.statusCode, .err e)
  | .nextErr err =>
      let b := errorHandler environment err path now
      (b.statusCode, .err b)

/-! ## Theorems -/

/-- C6: every successful `putItem` stamps both `createdAt` and `updatedAt`
with the current time of the write, so the returned record satisfies
`createdAt = updatedAt`. -/
theorem putItem_stamps_both_timestamps (tableName : Option String)
    (s : Store) (input : PutInput) (now : String)
    (htn : jsFalsyOpt tableName = false)
    (hid : input.id ≠ "") (hname : input.name ≠ "") :
    ∃ it s2 log, putItem tableName none s input now = (.ok it, s2, log) ∧
      it.createdAt = some now ∧ it.updatedAt = some now ∧
      it.createdAt = it.updatedAt := by
  refine ⟨⟨input.id, input.name, some now, some now, input.extra⟩,
    ddbPut s ⟨input.id, input.name, some now, some now, input.extra⟩,
    ["Success - item added or updated"], ?_, rfl, rfl, rfl⟩
  simp [putItem, htn, hid, hname]

/-- Witness for C6 at the spec scenario `upsert(id1, name1)`. -/
theorem putItem_stamps_both_timestamps_witness :
    jsFalsyOpt (some "SampleTable") = false ∧ "id1" ≠ "" ∧ "name1" ≠ "" ∧
    (∃ it s2 log,
      putItem (some "SampleTable") none [] ⟨"id1", "name1", []⟩ "t0" =
        (.ok it, s2, log) ∧
      it.createdAt = some "t0" ∧ it.updatedAt = some "t0" ∧
      it.createdAt = it.updatedAt) :=
  ⟨rfl, by decide, by decide,
   putItem_stamps_both_timestamps (some "SampleTable") [] ⟨"id1", "name1", []⟩
     "t0" rfl (by decide) (by decide)⟩

/-- C3: contrary to the claim, a second `putItem` to the same id
overwrites `createdAt`: after writing id `a` at time `t1` and again at
time `t2`, the stored record's `createdAt` is `t2`, not `t1`. -/
theorem second_upsert_overwrites_createdAt :
    ∃ it1 s1 it2 s2,
      (putItem (some "SampleTable") none [] ⟨"a", "n1", []⟩ "t1").1 = .ok it1 ∧
      (putItem (some "SampleTable") none [] ⟨"a", "n1", []⟩ "t1").2.1 = s1 ∧
      (putItem (some "SampleTable") none s1 ⟨"a", "n2", []⟩ "t2").1 = .ok it2 ∧
      (putItem (some "SampleTable") none s1 ⟨"a", "n2", []⟩ "t2").2.1 = s2 ∧
      it1.createdAt = some "t1" ∧ ddbGet s2 "a" = some it2 ∧
      it2.createdAt = some "t2" ∧ it2.createdAt ≠ it1.createdAt :=
  ⟨⟨"a", "n1", some "t1", some "t1", []⟩,
   [⟨"a", "n1", some "t1", some "t1", []⟩],
   ⟨"a", "n2", some "t2", some "t2", []⟩,
   [⟨"a", "n2", some "t2", some "t2", []⟩],
   rfl, rfl, rfl, rfl, rfl, rfl, rfl, by decide⟩

/-- C8: `getItemById` with an empty id fails before any store call (even
with the backend erroring, the thrown error is the validation one and
nothing is logged from a backend call), but the thrown error carries no
status code, so the error middleware surfaces it as 500, not 400. -/
theorem getItemById_empty_id_yields_500 :
    getItemById (some "SampleTable") (some "backend down") [] "" =
      (.error (mkError "ID parameter is required"), []) ∧
    (errorHandler none (mkError "ID parameter is required")
        "/api/items/" "t").statusCode = 500 ∧
    (500 : Nat) ≠ 400 :=
  ⟨rfl, rfl, by decide⟩

/-- C7 counterexample: an error that carries its own status code 418 but
is named `JsonWebTokenError` is answered with status 401, not 418, so the
response status is not always the error's own code. -/
theorem errorHandler_own_code_not_used :
    (errorHandler none ⟨"jwt bad", "JsonWebTokenError", some 418, "st"⟩
        "/p" "t").statusCode = 401 ∧ (401 : Nat) ≠ 418 :=
  ⟨rfl, by decide⟩

/-- C7 (amended): for errors not named `ValidationError`, `CastError` or
`JsonWebTokenError`, the envelope's status code is the error's own
nonzero code when it carries one and 500 otherwise; the timestamp and
path are echoed; and the stack field is present iff the environment is
not `prod`. -/
theorem errorHandler_envelope_spec (environment : Option String)
    (err : JsError) (path now : String)
    (hname : err.name ≠ "ValidationError" ∧ err.name ≠ "CastError" ∧
      err.name ≠ "JsonWebTokenError") :
    (∀ c, err.statusCode = some c → c ≠ 0 →
        (errorHandler environment err path now).statusCode = c) ∧
    (err.statusCode = none →
        (errorHandler environment err path now).statusCode = 500) ∧
    (errorHandler environment err path now).timestamp = now ∧
    (errorHandler environment err path now).path = path ∧
    ((errorHandler environment err path now).stack.isSome ↔
      environment ≠ some "prod") := by
  obtain ⟨h1, h2, h3⟩ := hname
  refine ⟨?_, ?_, ?_, ?_, ?_⟩
  · intro c hc hc0
    simp [errorHandler, h1, h2, h3, hc, hc0]
  · intro hc
    simp [errorHandler, h1, h2, h3, hc]
  · simp [errorHandler]
  · simp [errorHandler]
  · by_cases hp : environment = some "prod" <;>
      simp [errorHandler, hp]

/-- Witness for C7 (amended) at a plain error carrying code 404. -/
theorem errorHandler_envelope_spec_witness :
    (errorHandler none ⟨"m", "Error", some 404, "s"⟩ "/p" "t").statusCode
      = 404 ∧
    ((errorHandler none ⟨"m", "Error", some 404, "s"⟩ "/p" "t").stack.isSome
      ↔ (none : Option String) ≠ some "prod") :=
  ⟨(errorHandler_envelope_spec none ⟨"m", "Error", some 404, "s"⟩ "/p" "t"
      ⟨by decide, by decide, by decide⟩).1 404 rfl (by decide),
   (errorHandler_envelope_spec none ⟨"m", "Error", some 404, "s"⟩ "/p" "t"
      ⟨by decide, by decide, by decide⟩).2.2.2.2⟩

/-- C1: a successful `putItem` followed immediately by `getItemById` with
the same id returns an item whose `id` and `name` equal the input's. -/
theorem upsert_then_getById (tableName : Option String) (s : Store)
    (i n now : String) (htn : jsFalsyOpt tableName = false)
    (hi : i ≠ "") (hn : n ≠ "") :
    ∃ it s2 log,
      putItem tableName none s ⟨i, n, []⟩ now = (.ok it, s2, log) ∧
      (getItemById tableName none s2 i).1 = .ok (some it) ∧
      it.id = i ∧ it.name = n := by
  refine ⟨⟨i, n, some now, some now, []⟩,
    ddbPut s ⟨i, n, some now, some now, []⟩,
    ["Success - item added or updated"], ?_, ?_, rfl, rfl⟩
  · simp [putItem, htn, hi, hn]
  · simp [getItemById, htn, hi, ddbGet, ddbPut]

/-- Witness for C1 at `upsert(id1, name1)` on the empty table. -/
theorem upsert_then_getById_witness :
    jsFalsyOpt (some "SampleTable") = false ∧ "id1" ≠ "" ∧ "name1" ≠ "" ∧
    (∃ it s2 log,
      putItem (some "SampleTable") none [] ⟨"id1", "name1", []⟩ "t0" =
        (.ok it, s2, log) ∧
      (getItemById (some "SampleTable") none s2 "id1").1 = .ok (some it) ∧
      it.id = "id1" ∧ it.name = "name1") :=
  ⟨rfl, by decide, by decide,
   upsert_then_getById (some "SampleTable") [] "id1" "name1" "t0" rfl
     (by decide) (by decide)⟩

/-- C2: a POST body with a falsy `id` or `name` is answered with a 400
envelope whose message contains "required", `putItem` is not invoked, the
store is unchanged, and an id absent before is still reported absent. -/
theorem post_invalid_body_rejected (tableName dbErr : Option String)
    (s : Store) (body : Body) (path now : String)
    (h : jsFalsyOpt body.id = true ∨ jsFalsyOpt body.name = true) :
    ∃ e, postItemRoute tableName dbErr s body path now =
        (.errBody e, s, false) ∧
      e.statusCode = 400 ∧ (∃ a b, e.message = a ++ "required" ++ b) ∧
      (∀ environment, finalize environment path now (.errBody e) =
        (400, .err e)) ∧
      (∀ tn2 id2, jsFalsyOpt tn2 = false → id2 ≠ "" → ddbGet s id2 = none →
        (getItemById tn2 none s id2).1 = .ok none) := by
  have hor : (jsFalsyOpt body.id || jsFalsyOpt body.name) = true := by
    rcases h with h | h <;> simp [h]
  refine ⟨⟨"Both id and name are required in the request body", 400, now,
    path, none⟩, ?_, rfl,
    ⟨"Both id and name are ", " in the request body", rfl⟩, fun _ => rfl, ?_⟩
  · simp [postItemRoute, hor]
  · intro tn2 id2 ht2 hi2 hg
    simp [getItemById, ht2, hi2, hg]

/-- Witness for C2 at the spec scenario `upsert(missing id)`. -/
theorem post_invalid_body_rejected_witness :
    (jsFalsyOpt (Body.mk none (some "no id") []).id = true ∨
      jsFalsyOpt (Body.mk none (some "no id") []).name = true) ∧
    (∃ e, postItemRoute (some "SampleTable") none []
        ⟨none, some "no id", []⟩ "/api/items" "t" = (.errBody e, [], false) ∧
      e.statusCode = 400 ∧ (∃ a b, e.message = a ++ "required" ++ b) ∧
      (∀ environment, finalize environment "/api/items" "t" (.errBody e) =
        (400, .err e)) ∧
      (∀ tn2 id2, jsFalsyOpt tn2 = false → id2 ≠ "" → ddbGet [] id2 = none →
        (getItemById tn2 none [] id2).1 = .ok none)) :=
  ⟨Or.inl rfl,
   post_invalid_body_rejected (some "SampleTable") none []
     ⟨none, some "no id", []⟩ "/api/items" "t" (Or.inl rfl)⟩

/-- C4: an id never written yields `ok none` from the service (absence,
not an exception), and the route answers with a 404 envelope whose
message contains the id. -/
theorem getById_never_written (tableName : Option String) (s : Store)
    (id path now : String) (environment : Option String)
    (htn : jsFalsyOpt tableName = false) (hid : id ≠ "")
    (habsent : ∀ it ∈ s, it.id ≠ id) :
    (getItemById tableName none s id).1 = .ok none ∧
    ∃ e, getItemByIdRoute tableName none s id path now = .errBody e ∧
      finalize environment path now (.errBody e) = (404, .err e) ∧
      e.statusCode = 404 ∧ ∃ a b, e.message = a ++ id ++ b := by
  have hnone : ddbGet s id = none := by
    simp only [ddbGet, List.find?_eq_none]
    intro it hit
    simp [habsent it hit]
  refine ⟨?_, ⟨"Item with id \x27" ++ id ++ "\x27 not found", 404, now,
    path, none⟩, ?_, rfl, rfl, "Item with id \x27", "\x27 not found", rfl⟩
  · simp [getItemById, htn, hid, hnone]
  · simp [getItemByIdRoute, getItemById, htn, hid, hnone]

/-- Witness for C4 at the spec scenario `getById(ghost)` on an empty
table. -/
theorem getById_never_written_witness :
    jsFalsyOpt (some "SampleTable") = false ∧ "ghost" ≠ "" ∧
    (∀ it ∈ ([] : Store), it.id ≠ "ghost") ∧
    ((getItemById (some "SampleTable") none [] "ghost").1 = .ok none ∧
     ∃ e, getItemByIdRoute (some "SampleTable") none [] "ghost"
         "/api/items/ghost" "t" = .errBody e ∧
       finalize none "/api/items/ghost" "t" (.errBody e) = (404, .err e) ∧
       e.statusCode = 404 ∧ ∃ a b, e.message = a ++ "ghost" ++ b) :=
  ⟨rfl, by decide, by simp,
   getById_never_written (some "SampleTable") [] "ghost" "/api/items/ghost"
     "t" none rfl (by decide) (by simp)⟩

/-- C5: whatever error the underlying store call raises, each of the
three service operations logs the upstream detail and throws a fixed
generic message that does not depend on it, and such an error is answered
with status 500 by the error middleware. -/
theorem backend_error_flattened (tableName : Option String) (e : String)
    (s : Store) (id : String) (input : PutInput)
    (environment : Option String) (path now ts : String)
    (htn : jsFalsyOpt tableName = false) (hid : id ≠ "")
    (hpid : input.id ≠ "") (hpname : input.name ≠ "") :
    getAllItems tableName (some e) s =
      (.error (mkError "Failed to retrieve items from database"),
        ["Error getting all items: " ++ e]) ∧
    getItemById tableName (some e) s id =
      (.error (mkError "Failed to retrieve item from database"),
        ["Error getting item by id: " ++ e]) ∧
    putItem tableName (some e) s input now =
      (.error (mkError "Failed to save item to database"), s,
        ["Error putting item: " ++ e]) ∧
    (∀ m, (errorHandler environment (mkError m) path ts).statusCode = 500) := by
  refine ⟨?_, ?_, ?_, fun m => rfl⟩
  · simp [getAllItems, htn]
  · simp [getItemById, htn, hid]
  · simp [putItem, htn, hpid, hpname]

/-- Witness for C5 with the upstream error `boom`. -/
theorem backend_error_flattened_witness :
    jsFalsyOpt (some "SampleTable") = false ∧ "x" ≠ "" ∧
    ("x" ≠ "" ∧ "y" ≠ "") ∧
    (getAllItems (some "SampleTable") (some "boom") [] =
      (.error (mkError "Failed to retrieve items from database"),
        ["Error getting all items: " ++ "boom"]) ∧
     getItemById (some "SampleTable") (some "boom") [] "x" =
      (.error (mkError "Failed to retrieve item from database"),
        ["Error getting item by id: " ++ "boom"]) ∧
     putItem (some "SampleTable") (some "boom") [] ⟨"x", "y", []⟩ "t" =
      (.error (mkError "Failed to save item to database"), [],
        ["Error putting item: " ++ "boom"]) ∧
     (∀ m, (errorHandler none (mkError m) "/p" "t2").statusCode = 500)) :=
  ⟨rfl, by decide, ⟨by decide, by decide⟩,
   backend_error_flattened (some "SampleTable") "boom" [] "x" ⟨"x", "y", []⟩
     none "/p" "t" "t2" rfl (by decide) (by decide) (by decide)⟩

/-- C9: `getAllItems` on the empty table succeeds with the empty list,
and whenever the adapter does not fail the list route is finalized as a
200 response carrying the JSON array of items. -/
theorem listAll_empty_and_list_route (tableName : Option String)
    (environment : Option String) (path now : String)
    (htn : jsFalsyOpt tableName = false) :
    getAllItems tableName none [] = (.ok [], []) ∧
    (∀ s : Store, finalize environment path now
      (getItemsRoute tableName none s) = (200, .items s)) := by
  constructor
  · simp [getAllItems, htn]
  · intro s
    simp [getItemsRoute, getAllItems, htn, finalize]

/-- Witness for C9 at the spec scenario `listAll` on a fresh table. -/
theorem listAll_empty_and_list_route_witness :
    jsFalsyOpt (some "SampleTable") = false ∧
    (getAllItems (some "SampleTable") none [] = (.ok [], []) ∧
     (∀ s : Store, finalize none "/api/items" "t"
       (getItemsRoute (some "SampleTable") none s) = (200, .items s))) :=
  ⟨rfl, listAll_empty_and_list_route (some "SampleTable") none "/api/items"
    "t" rfl⟩

/-- C10: a successful POST passes only `id` and `name` to the write: the
written record carries no extra fields, only `id`, `name`, `createdAt`
and `updatedAt`, whatever else the body contained. -/
theorem post_writes_only_id_and_name (tableName : Option String)
    (s : Store) (body : Body) (path now : String)
    (htn : jsFalsyOpt tableName = false)
    (hid : jsFalsyOpt body.id = false)
    (hname : jsFalsyOpt body.name = false) :
    ∃ it s2, postItemRoute tableName none s body path now =
        (.okItem it, s2, true) ∧
      it = { id := body.id.getD "", name := body.name.getD "",
             createdAt := some now, updatedAt := some now, extra := [] } ∧
      it.extra = [] ∧ ddbGet s2 (body.id.getD "") = some it := by
  obtain ⟨x, hx, hxe⟩ : ∃ x, body.id = some x ∧ x ≠ "" := by
    cases hbi : body.id with
    | none => rw [hbi] at hid; simp [jsFalsyOpt] at hid
    | some x =>
        refine ⟨x, rfl, ?_⟩
        rw [hbi] at hid
        simpa [jsFalsyOpt] using hid
  obtain ⟨y, hy, hye⟩ : ∃ y, body.name = some y ∧ y ≠ "" := by
    cases hbn : body.name with
    | none => rw [hbn] at hname; simp [jsFalsyOpt] at hname
    | some y =>
        refine ⟨y, rfl, ?_⟩
        rw [hbn] at hname
        simpa [jsFalsyOpt] using hname
  refine ⟨⟨x, y, some now, some now, []⟩,
    ddbPut s ⟨x, y, some now, some now, []⟩, ?_, ?_, rfl, ?_⟩
  · obtain ⟨t, ht, hte⟩ : ∃ t, tableName = some t ∧ t ≠ "" := by
      cases htt : tableName with
      | none => rw [htt] at htn; simp [jsFalsyOpt] at htn
      | some t =>
          refine ⟨t, rfl, ?_⟩
          rw [htt] at htn
          simpa [jsFalsyOpt] using htn
    simp [postItemRoute, hid, hname, hx, hy, putItem, ht, hte, hxe, hye,
      jsFalsyOpt]
  · simp [hx, hy]
  · simp [hx, ddbGet, ddbPut]

/-- Witness for C10: a body carrying an extra `admin` field still yields
a four-field record. -/
theorem post_writes_only_id_and_name_witness :
    jsFalsyOpt (some "SampleTable") = false ∧
    jsFalsyOpt (Body.mk (some "id1") (some "name1")
      [("admin", "true")]).id = false ∧
    jsFalsyOpt (Body.mk (some "id1") (some "name1")
      [("admin", "true")]).name = false ∧
    (∃ it s2, postItemRoute (some "SampleTable") none []
        ⟨some "id1", some "name1", [("admin", "true")]⟩ "/api/items" "t" =
        (.okItem it, s2, true) ∧
      it = { id := (some "id1").getD "", name := (some "name1").getD "",
             createdAt := some "t", updatedAt := some "t", extra := [] } ∧
      it.extra = [] ∧ ddbGet s2 ((some "id1").getD "") = some it) :=
  ⟨rfl, rfl, rfl,
   post_writes_only_id_and_name (some "SampleTable") []
     ⟨some "id1", some "name1", [("admin", "true")]⟩ "/api/items" "t"
     rfl rfl rfl⟩
